import Mathlib

/-!
Verification development for the MySQL agent check
(src/mysql/datadog_checks/mysql/mysql.py).

The file shallowly embeds the pure computational core of the check:

* the InnoDB `SHOW ENGINE INNODB STATUS` free-text parser
  (`_get_stats_from_innodb_status`),
* the version/metadata resolution (`_get_metadata`, `_version_compatible`),
* the server-identity key (`_get_host_key`),
* the metric-catalog assembly of `_collect_metrics`,
* the query-cache synthetic metrics (`_compute_synthetic_results`),
* the replication-health classification block of `_collect_metrics`.

Python semantics that matter are modelled explicitly: exceptions are an
`Except`-style result (`IndexError` from out-of-range list indexing,
`ValueError` from failed int/float conversion, and so on), `defaultdict(int)`
reads insert a zero default instead of raising, machine values are `Int`
(Python integers are unbounded) and float arithmetic is carried out in `Rat`.
-/

/-- The Python exception kinds the embedded code can raise. -/
inductive PyErr
  | indexError
  | valueError
  | attributeError
  | zeroDivisionError
deriving DecidableEq, Repr

/-- Python `str.isdigit` on a single ASCII character (the status text is ASCII). -/
def isPyDigit (c : Char) : Bool := '0' ≤ c && c ≤ '9'

/-- Python whitespace for `str.strip()`: space, tab, LF, CR, VT, FF. -/
def isPySpace (c : Char) : Bool :=
  c == ' ' || c == '\t' || c == '\n' || c == '\r' || c.toNat == 11 || c.toNat == 12

/-- Numeric value of a digit string (most significant digit first). -/
def digitsToNat (l : List Char) : Nat :=
  l.foldl (fun a c => 10 * a + (c.toNat - 48)) 0

/-- Leading sign of a Python numeric literal: consumes one `+` or `-`. -/
def splitSign (cs : List Char) : Int × List Char :=
  match cs with
  | '-' :: rest => (-1, rest)
  | '+' :: rest => (1, rest)
  | _ => (1, cs)

/-- Python `int(s)` / `long(s)` on a whitespace-free token: an optional sign
followed by a nonempty digit run, else `ValueError`. -/
def pyLong (s : String) : Except PyErr Int :=
  if (splitSign s.data).2 ≠ [] ∧ (splitSign s.data).2.all isPyDigit then
    Except.ok ((splitSign s.data).1 * (digitsToNat (splitSign s.data).2 : Int))
  else Except.error PyErr.valueError

/-- Python `float(s)` for the decimal literals appearing in the status text:
optional sign, integer digits, optional point and fraction digits; at least one
digit overall, else `ValueError`. The value is carried exactly in `Rat`. -/
def pyFloat (s : String) : Except PyErr Rat :=
  match (splitSign s.data).2.drop ((splitSign s.data).2.takeWhile isPyDigit).length with
  | [] =>
    if (splitSign s.data).2.takeWhile isPyDigit = [] then Except.error PyErr.valueError
    else Except.ok (((splitSign s.data).1 : Rat) *
      (digitsToNat ((splitSign s.data).2.takeWhile isPyDigit) : Rat))
  | '.' :: fp =>
    if fp.all isPyDigit ∧ ((splitSign s.data).2.takeWhile isPyDigit ≠ [] ∨ fp ≠ []) then
      Except.ok (((splitSign s.data).1 : Rat) *
        ((digitsToNat ((splitSign s.data).2.takeWhile isPyDigit) : Rat) +
          (digitsToNat fp : Rat) / ((10 : Rat) ^ fp.length)))
    else Except.error PyErr.valueError
  | _ => Except.error PyErr.valueError

/-- Truncation of a rational toward zero, as Python `int(float)` does. -/
def ratTrunc (q : Rat) : Int := Int.tdiv q.num (q.den : Int)

/-- Python `long(float(s))` (used for the semaphore wait time). -/
def pyLongOfFloat (s : String) : Except PyErr Int :=
  match pyFloat s with
  | Except.ok q => Except.ok (ratTrunc q)
  | Except.error e => Except.error e

/-- Python `s.split(sep)` for a one-character separator: empty fields are kept. -/
def splitCharAux (sep : Char) : List Char → List Char → List (List Char)
  | acc, [] => [acc.reverse]
  | acc, c :: rest =>
    if c = sep then acc.reverse :: splitCharAux sep [] rest
    else splitCharAux sep (c :: acc) rest

/-- `s.split(sep)` on a string, as a list of strings. -/
def pySplitChar (sep : Char) (s : String) : List String :=
  (splitCharAux sep [] s.data).map (fun l => String.mk l)

/-- `re.split(" +", s)`: split on maximal runs of spaces (runs are collapsed,
a leading or trailing run contributes an empty field, as with the regex). A
space followed by another space is skipped; a space followed by a non-space
(or the end) closes the current field. -/
def splitSpacesAux : List Char → List Char → List (List Char)
  | [], acc => [acc.reverse]
  | c :: rest, acc =>
    if c = ' ' then
      match rest with
      | [] => [acc.reverse, []]
      | c2 :: rest2 =>
        if c2 = ' ' then splitSpacesAux (c2 :: rest2) acc
        else acc.reverse :: splitSpacesAux (c2 :: rest2) []
    else splitSpacesAux rest (c :: acc)

/-- `re.split(" +", s)` on a string. -/
def pySplitSpaces (s : String) : List String :=
  (splitSpacesAux s.data []).map (fun l => String.mk l)

/-- Strip all leading and trailing characters satisfying `p` (Python `strip`). -/
def stripChars (p : Char → Bool) (l : List Char) : List Char :=
  ((l.dropWhile p).reverse.dropWhile p).reverse

/-- Python `s.strip()` (whitespace). -/
def pyStrip (s : String) : String := String.mk (stripChars isPySpace s.data)

/-- Python `s.strip(c)` for a single strip character. -/
def pyStripChar (c : Char) (s : String) : String :=
  String.mk (stripChars (fun d => d == c) s.data)

/-- First index of `sub` in `hay`, scanning left to right. -/
def subIdxAux (sub : List Char) : List Char → Nat → Option Nat
  | [], i => if sub.isPrefixOf ([] : List Char) then some i else none
  | hay@(_ :: t), i => if sub.isPrefixOf hay then some i else subIdxAux sub t (i + 1)

/-- Python `s.find(sub)`: the first index of `sub` in `s`, or `-1`. -/
def pyFind (s sub : String) : Int :=
  match subIdxAux sub.data s.data 0 with
  | some n => (n : Int)
  | none => -1

/-- Python `s.startswith(sub)`. -/
def pyStarts (s sub : String) : Bool := sub.data.isPrefixOf s.data

/-- Python `s.lower()` (ASCII text). -/
def pyLower (s : String) : String := String.mk (s.data.map Char.toLower)

/-- Python `s.lower().strip()` as used on replication status variables. -/
def pyLowerStrip (s : String) : String := pyStrip (pyLower s)

/-! ## Association-list maps

The check's result dictionaries are modelled as association lists keyed by
strings, with dict-update (replace or append) and lookup. -/

/-- Dict update: replace the value of an existing key, else append. -/
def alSet {α : Type} : List (String × α) → String → α → List (String × α)
  | [], k, v => [(k, v)]
  | (k2, v2) :: t, k, v =>
    if k2 = k then (k, v) :: t else (k2, v2) :: alSet t k v

/-- Dict lookup. -/
def alGet {α : Type} : List (String × α) → String → Option α
  | [], _ => none
  | (k2, v2) :: t, k => if k2 = k then some v2 else alGet t k

/-! ## The InnoDB status parser (`_get_stats_from_innodb_status`)

The scan state: the running `results` dict (a `defaultdict(int)`, so reads of
missing keys yield 0 and `+=` on a fresh key starts from 0), the
transaction-section latch `txn_seen`, the previous (stripped) line, and the
current buffer-pool id (`-1` = aggregate). A raised Python exception aborts
the scan, which `PRes.err` models; the state it carries is the state at raise
time (only the error kind is observable at the top level). -/

structure PState where
  results : List (String × Int)
  txn_seen : Bool
  prev_line : String
  buffer_id : Int
deriving DecidableEq, Repr

/-- Outcome of executing a piece of the scan body. -/
inductive PRes
  | ok (s : PState)
  | err (e : PyErr) (s : PState)
deriving DecidableEq, Repr

/-- Sequencing: a raised exception propagates. -/
def PRes.bind (r : PRes) (f : PState → PRes) : PRes :=
  match r with
  | PRes.ok s => f s
  | PRes.err e s => PRes.err e s

/-- `defaultdict(int)` read used by `+=`: 0 for a missing key. -/
def rgetD (rs : List (String × Int)) (k : String) : Int := (alGet rs k).getD 0

/-- `defaultdict(int)` read that also materializes the default, as Python's
`__getitem__` does on a missing key (relevant for the checkpoint-age reads). -/
def ddGet (rs : List (String × Int)) (k : String) : Int × List (String × Int) :=
  match alGet rs k with
  | some v => (v, rs)
  | none => (0, rs ++ [(k, 0)])

/-- `row[i]` followed by `long(...)`: `IndexError` out of range, else `int`. -/
def rowLong (row : List String) (i : Nat) : Except PyErr Int :=
  match row.get? i with
  | none => Except.error PyErr.indexError
  | some t => pyLong t

/-- `row[i]` followed by `long(float(...))`. -/
def rowLongFloat (row : List String) (i : Nat) : Except PyErr Int :=
  match row.get? i with
  | none => Except.error PyErr.indexError
  | some t => pyLongOfFloat t

/-- `results[k] = long(row[i])`. -/
def setLong (k : String) (row : List String) (i : Nat) (s : PState) : PRes :=
  match rowLong row i with
  | Except.ok v => PRes.ok { s with results := alSet s.results k v }
  | Except.error e => PRes.err e s

/-- `results[k] += long(row[i]) * mul`. -/
def addLong (k : String) (row : List String) (i : Nat) (mul : Int) (s : PState) : PRes :=
  match rowLong row i with
  | Except.ok v =>
    PRes.ok { s with results := alSet s.results k (rgetD s.results k + v * mul) }
  | Except.error e => PRes.err e s

/-- `results[k] += long(float(row[i])) * mul`. -/
def addLongFloat (k : String) (row : List String) (i : Nat) (mul : Int) (s : PState) : PRes :=
  match rowLongFloat row i with
  | Except.ok v =>
    PRes.ok { s with results := alSet s.results k (rgetD s.results k + v * mul) }
  | Except.error e => PRes.err e s

/-- `results[k] += c` for a constant increment (never raises). -/
def addConst (k : String) (c : Int) (s : PState) : PState :=
  { s with results := alSet s.results k (rgetD s.results k + c) }

/-- `results[k] = c` for a constant (never raises). -/
def setConst (k : String) (c : Int) (s : PState) : PState :=
  { s with results := alSet s.results k c }

/-- `long(row[i]) + long(row[j]) + ...` evaluated left to right. -/
def mapRowLong (row : List String) : List Nat → Except PyErr (List Int)
  | [] => Except.ok []
  | i :: t =>
    match rowLong row i with
    | Except.error e => Except.error e
    | Except.ok v =>
      match mapRowLong row t with
      | Except.error e => Except.error e
      | Except.ok vs => Except.ok (v :: vs)

/-- `results[k] = long(row[i1]) + long(row[i2]) + ...`. -/
def setLongSum (k : String) (row : List String) (idxs : List Nat) (s : PState) : PRes :=
  match mapRowLong row idxs with
  | Except.ok vs =>
    PRes.ok { s with results := alSet s.results k (vs.foldl (fun a b => a + b) 0) }
  | Except.error e => PRes.err e s

/-- Python slice `row[a:b]` (clamping, never raising). -/
def pySlice (row : List String) (a b : Nat) : List String := (row.drop a).take (b - a)

/-- `_are_values_numeric`: every token is a nonempty digit string. -/
def areValuesNumeric (l : List String) : Bool :=
  l.all (fun t => !t.data.isEmpty && t.data.all isPyDigit)

/-- `try: ... except ValueError: log` — a `ValueError` is swallowed, keeping
the mutations made before the raise; other exceptions propagate. -/
def catchVE (r : PRes) : PRes :=
  match r with
  | PRes.err PyErr.valueError s => PRes.ok s
  | r2 => r2

/-- The body guarded by the `try` of the `Pending normal aio reads:` branch:
dispatch on the version-dependent token count, with the two same-length
16-token layouts disambiguated by `_are_values_numeric` checks; an
unrecognized token count falls through with no effect (logged only). -/
def aioTry (s : PState) (row : List String) : PRes :=
  if row.length = 8 then
    PRes.bind (setLong "Innodb_pending_normal_aio_reads" row 4 s)
      (setLong "Innodb_pending_normal_aio_writes" row 7)
  else if row.length = 14 then
    PRes.bind (setLong "Innodb_pending_normal_aio_reads" row 4 s)
      (setLong "Innodb_pending_normal_aio_writes" row 10)
  else if row.length = 16 then
    if areValuesNumeric (pySlice row 4 8) && areValuesNumeric (pySlice row 11 15) then
      PRes.bind (setLongSum "Innodb_pending_normal_aio_reads" row [4, 5, 6, 7] s)
        (setLongSum "Innodb_pending_normal_aio_writes" row [11, 12, 13, 14])
    else if areValuesNumeric (pySlice row 4 9) && areValuesNumeric (pySlice row 12 15) then
      PRes.bind (setLong "Innodb_pending_normal_aio_reads" row 4 s)
        (setLong "Innodb_pending_normal_aio_writes" row 12)
    else PRes.ok s
  else if row.length = 18 then
    PRes.bind (setLong "Innodb_pending_normal_aio_reads" row 4 s)
      (setLong "Innodb_pending_normal_aio_writes" row 12)
  else if row.length = 22 then
    PRes.bind (setLong "Innodb_pending_normal_aio_reads" row 4 s)
      (setLong "Innodb_pending_normal_aio_writes" row 16)
  else PRes.ok s

/-- The `Pending normal aio reads:` branch: its body runs under
`try/except ValueError`. -/
def aioHandler (s : PState) (row : List String) : PRes := catchVE (aioTry s row)

/-- The big `if/elif` chain of `_get_stats_from_innodb_status`, applied to the
stripped line and its token row, in source order. -/
def dispatch (s : PState) (line : String) (row : List String) : PRes :=
  if pyFind line "Mutex spin waits" = 0 then
    PRes.bind (setLong "Innodb_mutex_spin_waits" row 3 s)
      (fun s1 => PRes.bind (setLong "Innodb_mutex_spin_rounds" row 5 s1)
        (setLong "Innodb_mutex_os_waits" row 8))
  else if pyFind line "RW-shared spins" = 0 ∧ pyFind line ";" > 0 then
    PRes.bind (setLong "Innodb_s_lock_spin_waits" row 2 s)
      (fun s1 => PRes.bind (setLong "Innodb_x_lock_spin_waits" row 8 s1)
        (fun s2 => PRes.bind (setLong "Innodb_s_lock_os_waits" row 5 s2)
          (setLong "Innodb_x_lock_os_waits" row 11)))
  else if pyFind line "RW-shared spins" = 0 ∧ pyFind line "; RW-excl spins" = -1 then
    PRes.bind (setLong "Innodb_s_lock_spin_waits" row 2 s)
      (fun s1 => PRes.bind (setLong "Innodb_s_lock_spin_rounds" row 4 s1)
        (setLong "Innodb_s_lock_os_waits" row 7))
  else if pyFind line "RW-excl spins" = 0 then
    PRes.bind (setLong "Innodb_x_lock_spin_waits" row 2 s)
      (fun s1 => PRes.bind (setLong "Innodb_x_lock_spin_rounds" row 4 s1)
        (setLong "Innodb_x_lock_os_waits" row 7))
  else if pyFind line "seconds the semaphore:" > 0 then
    addLongFloat "Innodb_semaphore_wait_time" row 9 1000
      (addConst "Innodb_semaphore_waits" 1 s)
  else if pyFind line "Trx id counter" = 0 then
    PRes.ok { s with txn_seen := true }
  else if pyFind line "History list length" = 0 then
    setLong "Innodb_history_list_length" row 3 s
  else if s.txn_seen = true ∧ pyFind line "---TRANSACTION" = 0 then
    if pyFind line "ACTIVE" > 0 then
      PRes.ok (addConst "Innodb_active_transactions" 1
        (addConst "Innodb_current_transactions" 1 s))
    else PRes.ok (addConst "Innodb_current_transactions" 1 s)
  else if s.txn_seen = true ∧ pyFind line "------- TRX HAS BEEN" = 0 then
    addLong "Innodb_row_lock_time" row 5 1000 s
  else if pyFind line "read views open inside InnoDB" > 0 then
    setLong "Innodb_read_views" row 0 s
  else if pyFind line "mysql tables in use" = 0 then
    PRes.bind (addLong "Innodb_tables_in_use" row 4 1 s)
      (addLong "Innodb_locked_tables" row 6 1)
  else if s.txn_seen = true ∧ pyFind line "lock struct(s)" > 0 then
    if pyFind line "LOCK WAIT" = 0 then
      PRes.bind (addLong "Innodb_lock_structs" row 2 1 s)
        (fun s1 => PRes.ok (addConst "Innodb_locked_transactions" 1 s1))
    else if pyFind line "ROLLING BACK" = 0 then
      addLong "Innodb_lock_structs" row 2 1 s
    else
      addLong "Innodb_lock_structs" row 0 1 s
  else if pyFind line " OS file reads, " > 0 then
    PRes.bind (setLong "Innodb_os_file_reads" row 0 s)
      (fun s1 => PRes.bind (setLong "Innodb_os_file_writes" row 4 s1)
        (setLong "Innodb_os_file_fsyncs" row 8))
  else if pyFind line "Pending normal aio reads:" = 0 then
    aioHandler s row
  else if pyFind line "ibuf aio reads" = 0 then
    if row.length = 10 then
      PRes.bind (setLong "Innodb_pending_ibuf_aio_reads" row 3 s)
        (fun s1 => PRes.bind (setLong "Innodb_pending_aio_log_ios" row 6 s1)
          (setLong "Innodb_pending_aio_sync_ios" row 9))
    else if row.length = 7 then
      PRes.ok (setConst "Innodb_pending_aio_sync_ios" 0
        (setConst "Innodb_pending_aio_log_ios" 0
          (setConst "Innodb_pending_ibuf_aio_reads" 0 s)))
    else PRes.ok s
  else if pyFind line "Pending flushes (fsync)" = 0 then
    PRes.bind (setLong "Innodb_pending_log_flushes" row 4 s)
      (setLong "Innodb_pending_buffer_pool_flushes" row 7)
  else if pyFind line "Ibuf for space 0: size " = 0 then
    PRes.bind (setLong "Innodb_ibuf_size" row 5 s)
      (fun s1 => PRes.bind (setLong "Innodb_ibuf_free_list" row 9 s1)
        (setLong "Innodb_ibuf_segment_size" row 12))
  else if pyFind line "Ibuf: size " = 0 then
    PRes.bind (setLong "Innodb_ibuf_size" row 2 s)
      (fun s1 => PRes.bind (setLong "Innodb_ibuf_free_list" row 6 s1)
        (fun s2 => PRes.bind (setLong "Innodb_ibuf_segment_size" row 9 s2)
          (fun s3 =>
            if pyFind line "merges" > -1 then setLong "Innodb_ibuf_merges" row 10 s3
            else PRes.ok s3)))
  else if pyFind line ", delete mark " > 0 ∧ pyFind s.prev_line "merged operations:" = 0 then
    PRes.bind (setLong "Innodb_ibuf_merged_inserts" row 1 s)
      (fun s1 => PRes.bind (setLong "Innodb_ibuf_merged_delete_marks" row 4 s1)
        (fun s2 => PRes.bind (setLong "Innodb_ibuf_merged_deletes" row 6 s2)
          (fun s3 => PRes.ok (setConst "Innodb_ibuf_merged"
            (rgetD s3.results "Innodb_ibuf_merged_inserts" +
              rgetD s3.results "Innodb_ibuf_merged_delete_marks" +
              rgetD s3.results "Innodb_ibuf_merged_deletes") s3))))
  else if pyFind line " merged recs, " > 0 then
    PRes.bind (setLong "Innodb_ibuf_merged_inserts" row 0 s)
      (fun s1 => PRes.bind (setLong "Innodb_ibuf_merged" row 2 s1)
        (setLong "Innodb_ibuf_merges" row 5))
  else if pyFind line "Hash table size " = 0 then
    PRes.bind (setLong "Innodb_hash_index_cells_total" row 3 s)
      (fun s1 =>
        if pyFind line "used cells" > 0 then
          setLong "Innodb_hash_index_cells_used" row 6 s1
        else PRes.ok (setConst "Innodb_hash_index_cells_used" 0 s1))
  else if pyFind line " log i/o's done, " > 0 then
    setLong "Innodb_log_writes" row 0 s
  else if pyFind line " pending log writes, " > 0 then
    PRes.bind (setLong "Innodb_pending_log_writes" row 0 s)
      (setLong "Innodb_pending_checkpoint_writes" row 4)
  else if pyFind line "Log sequence number" = 0 then
    setLong "Innodb_lsn_current" row 3 s
  else if pyFind line "Log flushed up to" = 0 then
    setLong "Innodb_lsn_flushed" row 4 s
  else if pyFind line "Last checkpoint at" = 0 then
    setLong "Innodb_lsn_last_checkpoint" row 3 s
  else if pyFind line "Total memory allocated" = 0 ∧
      pyFind line "in additional pool allocated" > 0 then
    PRes.bind (setLong "Innodb_mem_total" row 3 s)
      (setLong "Innodb_mem_additional_pool" row 8)
  else if pyFind line "Adaptive hash index " = 0 then
    setLong "Innodb_mem_adaptive_hash" row 3 s
  else if pyFind line "Page hash           " = 0 then
    setLong "Innodb_mem_page_hash" row 2 s
  else if pyFind line "Dictionary cache    " = 0 then
    setLong "Innodb_mem_dictionary" row 2 s
  else if pyFind line "File system         " = 0 then
    setLong "Innodb_mem_file_system" row 2 s
  else if pyFind line "Lock system         " = 0 then
    setLong "Innodb_mem_lock_system" row 2 s
  else if pyFind line "Recovery system     " = 0 then
    setLong "Innodb_mem_recovery_system" row 2 s
  else if pyFind line "Threads             " = 0 then
    setLong "Innodb_mem_thread_hash" row 1 s
  else if pyFind line "Buffer pool size " = 0 then
    if s.buffer_id = -1 then setLong "Innodb_buffer_pool_pages_total" row 3 s
    else PRes.ok s
  else if pyFind line "Free buffers" = 0 then
    if s.buffer_id = -1 then setLong "Innodb_buffer_pool_pages_free" row 2 s
    else PRes.ok s
  else if pyFind line "Database pages" = 0 then
    if s.buffer_id = -1 then setLong "Innodb_buffer_pool_pages_data" row 2 s
    else PRes.ok s
  else if pyFind line "Modified db pages" = 0 then
    if s.buffer_id = -1 then setLong "Innodb_buffer_pool_pages_dirty" row 3 s
    else PRes.ok s
  else if pyFind line "Pages read ahead" = 0 then
    PRes.ok s
  else if pyFind line "Pages read" = 0 then
    if s.buffer_id = -1 then
      PRes.bind (setLong "Innodb_pages_read" row 2 s)
        (fun s1 => PRes.bind (setLong "Innodb_pages_created" row 4 s1)
          (setLong "Innodb_pages_written" row 6))
    else PRes.ok s
  else if pyFind line "Number of rows inserted" = 0 then
    PRes.bind (setLong "Innodb_rows_inserted" row 4 s)
      (fun s1 => PRes.bind (setLong "Innodb_rows_updated" row 6 s1)
        (fun s2 => PRes.bind (setLong "Innodb_rows_deleted" row 8 s2)
          (setLong "Innodb_rows_read" row 10)))
  else if pyFind line " queries inside InnoDB, " > 0 then
    PRes.bind (setLong "Innodb_queries_inside" row 0 s)
      (setLong "Innodb_queries_queued" row 4)
  else PRes.ok s

/-- Tokenization of one line: `re.split(" +", line)` then strip `,`, `;`,
`[`, `]` from every token, in that order. -/
def tokenize (line : String) : List String :=
  (pySplitSpaces line).map
    (fun t => pyStripChar ']' (pyStripChar '[' (pyStripChar ';' (pyStripChar ',' t))))

/-- One iteration of the scan loop: strip the line, tokenize, run the
`---BUFFER POOL` check, run the `if/elif` chain, record `prev_line`. -/
def processLine (s : PState) (rawLine : String) : PRes :=
  PRes.bind
    (if pyStarts (pyStrip rawLine) "---BUFFER POOL" then
      match rowLong (tokenize (pyStrip rawLine)) 2 with
      | Except.ok v => PRes.ok { s with buffer_id := v }
      | Except.error e => PRes.err e s
    else PRes.ok s)
    (fun s1 => PRes.bind (dispatch s1 (pyStrip rawLine) (tokenize (pyStrip rawLine)))
      (fun s2 => PRes.ok { s2 with prev_line := pyStrip rawLine }))

/-- The scan loop over the lines of the status text. -/
def runLines : PState → List String → PRes
  | s, [] => PRes.ok s
  | s, l :: ls => PRes.bind (processLine s l) (fun s1 => runLines s1 ls)

/-- The initial scan state (`results = defaultdict(int)`, `txn_seen = False`,
`prev_line = ''`, `buffer_id = -1`). -/
def initPState : PState :=
  { results := [], txn_seen := false, prev_line := "", buffer_id := -1 }

/-- `_get_stats_from_innodb_status` on the lines of the status text: run the
scan, then compute the checkpoint age from the two LSN counters — `results`
is a `defaultdict(int)`, so these two reads materialize a zero default for a
missing counter instead of raising `KeyError` (the `except KeyError` in the
source is unreachable) — and finally stringify every value as
`SHOW GLOBAL STATUS` does. -/
def innodbStatusParse (lines : List String) : Except PyErr (List (String × String)) :=
  match runLines initPState lines with
  | PRes.err e _ => Except.error e
  | PRes.ok s =>
    match ddGet s.results "Innodb_lsn_current" with
    | (cur, r1) =>
      match ddGet r1 "Innodb_lsn_last_checkpoint" with
      | (chk, r2) =>
        Except.ok ((alSet r2 "Innodb_checkpoint_age" (cur - chk)).map
          (fun kv => (kv.1, toString kv.2)))

/-! ## Version resolution (`_get_metadata`, `_version_compatible`) -/

/-- Modelled from the spec: the known build-tag vocabulary (`const.BUILDS` is
not under `src/`); the spec names `log` as a build tag
(`"10.0.1-MariaDB-mariadb1precise-log"` resolves build `log`). -/
def BUILDS : List String := ["log"]

/-- One iteration of `_get_metadata`'s scan over the `-`-separated segments:
a `MariaDB` segment sets the flavor; any other segment sets the `MySQL`
default while the flavor is still empty; a known build tag sets the build. -/
def metadataStep (fb : String × String) (data : String) : String × String :=
  (if data ≠ "MariaDB" ∧ (if data = "MariaDB" then "MariaDB" else fb.1) = "" then "MySQL"
   else (if data = "MariaDB" then "MariaDB" else fb.1),
   if data ∈ BUILDS then data else fb.2)

/-- `_get_metadata` on the raw `SELECT VERSION()` string: split on `-`, the
first segment is the version; scan the segments with `metadataStep`; an
empty build becomes `unspecified`. -/
def getMetadata (raw : String) : String × String × String :=
  ((pySplitChar '-' raw).headD "",
    ((pySplitChar '-' raw).foldl metadataStep ("", "")).1,
    if ((pySplitChar '-' raw).foldl metadataStep ("", "")).2 = "" then "unspecified"
    else ((pySplitChar '-' raw).foldl metadataStep ("", "")).2)

/-- Python tuple comparison `(a1,a2,a3) >= (b1,b2,b3)` (lexicographic). -/
def tripleGE (a b : Int × Int × Int) : Bool :=
  a.1 > b.1 || (a.1 = b.1 && (a.2.1 > b.2.1 || (a.2.1 = b.2.1 && a.2.2 ≥ b.2.2)))

/-- The leading digit run of a segment, as `re.match(r"([0-9]+)", seg)`:
`AttributeError` (on the `None.group(1)`) when the segment does not start
with a digit. -/
def leadingDigits (seg : String) : Except PyErr Int :=
  if seg.data.takeWhile isPyDigit = [] then Except.error PyErr.attributeError
  else Except.ok (digitsToNat (seg.data.takeWhile isPyDigit) : Int)

/-- `_version_compatible` on the resolved version string: split on `.`;
indexing segment 2 raises `IndexError` when there are fewer than three
segments (the `try` in the source only wraps the `split` call, which cannot
fail, so nothing catches this); the patch level is the leading digit run of
segment 2; major and minor must be fully numeric (`int(...)`), else
`ValueError`; finally the triple is compared lexicographically. -/
def versionCompatible (version : String) (compat : Int × Int × Int) : Except PyErr Bool :=
  match pySplitChar '.' version with
  | parts =>
    match parts.get? 2 with
    | none => Except.error PyErr.indexError
    | some seg2 =>
      match leadingDigits seg2 with
      | Except.error e => Except.error e
      | Except.ok patch =>
        match pyLong (parts.headD "") with
        | Except.error e => Except.error e
        | Except.ok major =>
          match pyLong ((parts.get? 1).getD "") with
          | Except.error e => Except.error e
          | Except.ok minor => Except.ok (tripleGE (major, minor, patch) compat)

/-! ## Server identity (`_get_host_key`) -/

/-- `_get_host_key`: the defaults file wins outright; otherwise the socket is
appended to the host when set, else a nonzero port, else the bare host. -/
def getHostKey (defaultsFile host sock : String) (port : Int) : String :=
  if defaultsFile ≠ "" then defaultsFile
  else if sock ≠ "" then host ++ ":" ++ sock
  else if port ≠ 0 then host ++ ":" ++ toString port
  else host

/-! ## Metric-catalog assembly (`_collect_metrics`)

The descriptor tables are represented by their key sets. The crucial
structural fact of the source is `metrics = STATUS_VARS`: the pass's catalog
IS the module-level `STATUS_VARS` object, every `metrics.update(...)` and
`metrics.pop(...)` mutates it, and the next pass starts from the mutated
object. `collectCatalog` therefore maps the table's state before a pass to
its state after it, which is also the catalog the pass submits from. -/

/-- Modelled from the spec: the metric-group descriptor tables live in
`const.py`, which is not under `src/`; each group is represented by a
distinguished descriptor key. `SYNTHETIC_VARS`'s keys are the two query-cache
synthetics, as used by `_compute_synthetic_results`. -/
def STATUS_VARS_initial : List String := ["mysql.status.base"]

/-- Modelled from the spec: a descriptor key standing for the extra status
metric group (`OPTIONAL_STATUS_VARS`). -/
def OPTIONAL_STATUS_VARS : List String := ["mysql.status.extra"]

/-- Modelled from the spec: the version-gated status group added at 5.6.6. -/
def OPTIONAL_STATUS_VARS_5_6_6 : List String := ["mysql.status.extra566"]

/-- Modelled from the spec: the Galera cluster metric group. -/
def GALERA_VARS : List String := ["mysql.galera.var"]

/-- Modelled from the spec: the performance-digest metric group. -/
def PERFORMANCE_VARS : List String := ["mysql.perf.var"]

/-- Modelled from the spec: the per-schema size metric group. -/
def SCHEMA_VARS : List String := ["mysql.schema.var"]

/-- Modelled from the spec: the extra InnoDB metric group. -/
def OPTIONAL_INNODB_VARS : List String := ["mysql.innodb.extra"]

/-- Modelled from the spec: the always-included variables group. -/
def VARIABLES_VARS : List String := ["mysql.vars.base"]

/-- Modelled from the spec: the always-included InnoDB group. -/
def INNODB_VARS : List String := ["mysql.innodb.base"]

/-- Modelled from the spec: the always-included binlog group. -/
def BINLOG_VARS : List String := ["mysql.binlog.base"]

/-- Modelled from the spec: the replication metric group. -/
def REPLICA_VARS : List String := ["mysql.replica.var"]

/-- The synthetic-metric keys set by `_compute_synthetic_results`. -/
def SYNTHETIC_VARS : List String := ["Qcache_utilization", "Qcache_instant_utilization"]

/-- `dict.update` on key sets: keep existing keys, append the new ones. -/
def updateKeys (m g : List String) : List String :=
  m ++ g.filter (fun k => !m.contains k)

/-- The per-pass toggles and capability flags consumed by the catalog
assembly, plus the synthetic keys actually present in `results` at the end
of the pass (those not present are popped). -/
structure MetricOptions where
  disable_innodb : Bool
  innodb_enabled : Bool
  extra_innodb : Bool
  extra_status : Bool
  vc566 : Bool
  galera : Bool
  extra_performance : Bool
  vc560 : Bool
  performance_schema_enabled : Bool
  schema_size : Bool
  replication : Bool
  computed_synthetics : List String
deriving DecidableEq, Repr

/-- The descriptor-catalog assembly of `_collect_metrics`, in source order.
Its argument is the state of the module-level `STATUS_VARS` table at the
start of the pass; its result is both the pass's catalog and the table's
state for the next pass (they are one aliased object in the source). -/
def collectCatalog (statusVars : List String) (o : MetricOptions) : List String :=
  match statusVars with
  | m =>
    match (if !o.disable_innodb && o.innodb_enabled && o.extra_innodb then
        updateKeys m OPTIONAL_INNODB_VARS else m) with
    | m =>
      match updateKeys (updateKeys (updateKeys m VARIABLES_VARS) INNODB_VARS) BINLOG_VARS with
      | m =>
        match (if o.extra_status then
            (if o.vc566 then updateKeys (updateKeys m OPTIONAL_STATUS_VARS) OPTIONAL_STATUS_VARS_5_6_6
             else updateKeys m OPTIONAL_STATUS_VARS)
          else m) with
        | m =>
          match (if o.galera then updateKeys m GALERA_VARS else m) with
          | m =>
            match (if o.extra_performance && o.vc560 && o.performance_schema_enabled then
                updateKeys m PERFORMANCE_VARS else m) with
            | m =>
              match (if o.schema_size then updateKeys m SCHEMA_VARS else m) with
              | m =>
                match (if o.replication then updateKeys m REPLICA_VARS else m) with
                | m =>
                  match updateKeys m SYNTHETIC_VARS with
                  | m =>
                    SYNTHETIC_VARS.foldl
                      (fun acc k =>
                        if k ∈ o.computed_synthetics then acc
                        else acc.filter (fun x => x ≠ k))
                      m

/-! ## Query-cache synthetic metrics (`_compute_synthetic_results`,
`_set_qcache_stats`, `_put_qcache_stats`)

Result-map values are either the raw strings delivered by
`SHOW GLOBAL STATUS` or numbers computed by the check (floats, carried
exactly as `Rat`). -/

/-- A value in the merged result map. -/
inductive QV
  | str (v : String)
  | num (v : Rat)
deriving DecidableEq, Repr

/-- Python `int(value)` on a result-map value. -/
def qvInt : QV → Except PyErr Int
  | QV.str v => pyLong v
  | QV.num q => Except.ok (ratTrunc q)

/-- Python `float(value)` on a result-map value. -/
def qvFloat : QV → Except PyErr Rat
  | QV.str v => pyFloat v
  | QV.num q => Except.ok q

/-- The per-identity quiescent-cache entry: the three counters of the
previous pass, all absent on the first-ever pass for an identity
(`qcache_stats.get(host_key, (None, None, None))`). -/
structure QState where
  hits : Option Int
  inserts : Option Int
  not_cached : Option Int
deriving DecidableEq, Repr

/-- The cumulative part: `Qcache_utilization` is 0 when `int(hits)` is 0,
else `float(hits) / (int(inserts) + int(not_cached) + int(hits)) * 100`. -/
def qcacheCumulative (results : List (String × QV)) (hv iv nv : QV) (h : Int) :
    Except PyErr (List (String × QV)) :=
  if h = 0 then Except.ok (alSet results "Qcache_utilization" (QV.num 0))
  else
    match qvFloat hv with
    | Except.error e => Except.error e
    | Except.ok hf =>
      match qvInt iv with
      | Except.error e => Except.error e
      | Except.ok i =>
        match qvInt nv with
        | Except.error e => Except.error e
        | Except.ok n =>
          if i + n + h = 0 then Except.error PyErr.zeroDivisionError
          else Except.ok (alSet results "Qcache_utilization"
            (QV.num (hf / ((i + n + h : Int) : Rat) * 100)))

/-- The instantaneous part, guarded by all three prior counters being
present: 0 on a zero hits-delta, else the delta ratio. -/
def qcacheInstant (res1 : List (String × QV)) (hv iv nv : QV) (h : Int) (q : QState) :
    Except PyErr (List (String × QV)) :=
  match q.hits, q.inserts, q.not_cached with
  | some ph, some pin, some pn =>
    if h - ph = 0 then Except.ok (alSet res1 "Qcache_instant_utilization" (QV.num 0))
    else
      match qvFloat hv with
      | Except.error e => Except.error e
      | Except.ok hf =>
        match qvInt iv with
        | Except.error e => Except.error e
        | Except.ok i =>
          match qvInt nv with
          | Except.error e => Except.error e
          | Except.ok n =>
            if (i - pin) + (n - pn) + (h - ph) = 0 then
              Except.error PyErr.zeroDivisionError
            else Except.ok (alSet res1 "Qcache_instant_utilization"
              (QV.num ((hf - (ph : Rat)) /
                (((i - pin) + (n - pn) + (h - ph) : Int) : Rat) * 100)))
  | _, _, _ => Except.ok res1

/-- The end-of-body cache update: `int(...)` the three counters again and
overwrite all three cached values (all-or-none). -/
def qcacheUpdate (res2 : List (String × QV)) (hv iv nv : QV) :
    Except PyErr (List (String × QV) × QState) :=
  match qvInt hv with
  | Except.error e => Except.error e
  | Except.ok h2 =>
    match qvInt iv with
    | Except.error e => Except.error e
    | Except.ok i2 =>
      match qvInt nv with
      | Except.error e => Except.error e
      | Except.ok n2 =>
        Except.ok (res2, { hits := some h2, inserts := some i2, not_cached := some n2 })

/-- The body of `_compute_synthetic_results` once the three counters were
found present: cumulative utilization, then instantaneous utilization, then
the cache update. -/
def computeSyntheticCore (results : List (String × QV)) (hv iv nv : QV) (q : QState) :
    Except PyErr (List (String × QV) × QState) :=
  match qvInt hv with
  | Except.error e => Except.error e
  | Except.ok h =>
    match qcacheCumulative results hv iv nv h with
    | Except.error e => Except.error e
    | Except.ok res1 =>
      match qcacheInstant res1 hv iv nv h q with
      | Except.error e => Except.error e
      | Except.ok res2 => qcacheUpdate res2 hv iv nv

/-- `_compute_synthetic_results` together with the end-of-body cache update:
when the three `Qcache` counters are present, compute the cumulative (and,
when all prior counters are present, the instantaneous) utilization, then
overwrite all three cached counters; otherwise leave both the map and the
cache untouched. -/
def computeSyntheticResults (results : List (String × QV)) (q : QState) :
    Except PyErr (List (String × QV) × QState) :=
  match alGet results "Qcache_hits", alGet results "Qcache_inserts",
      alGet results "Qcache_not_cached" with
  | some hv, some iv, some nv => computeSyntheticCore results hv iv nv q
  | _, _, _ => Except.ok (results, q)

/-! ## Replication health classification (the `replication` block of
`_collect_metrics`, lines 390-433)

The collected signals are the classifier's inputs. The collection helpers
(`collect_string`, `collect_scalar`, `collect_type`) live in
`collection_utils.py`, which is not under `src/`; modelled from the spec,
sub-signals are independently nullable: an absent `Slave_running` is the
empty string (falsy, like the absent value), an absent per-channel thread
flag mapping is `none`, and a present mapping is collapsed to "any channel
reports running", with an empty mapping collapsing to `false` (Python's
falsy `{}` is not `None`, hence "present"). -/

/-- The check's service statuses (`AgentCheck.OK/WARNING/CRITICAL/UNKNOWN`). -/
inductive SvcStatus
  | ok
  | warning
  | critical
  | unknown
deriving DecidableEq, Repr

/-- The classifier's inputs, as collected by the replication block. -/
structure ReplInput where
  vc570 : Bool
  slave_running : String
  binlog_enabled : Bool
  slaves : Int
  master_host : String
  io_running : Option Bool
  sql_running : Option Bool
deriving DecidableEq, Repr

/-- `_is_master`: at least one connected replica, or no recorded source host. -/
def isMaster (slaves : Int) (masterHost : String) : Bool :=
  slaves > 0 || masterHost = ""

/-- Python truthiness of a collapsed thread flag (`None` and `False` falsy). -/
def optTruthy : Option Bool → Bool
  | none => false
  | some b => b

/-- The ordered classification rules of the replication block: the
version-dependent thread-flag rule (or, below threshold, the legacy
`Slave_running == 'off'` rule), then the source-host fallback, then the
legacy `Slave_running` fallback. -/
def replStatus (r : ReplInput) : SvcStatus :=
  match (if r.vc570 then
      (if ¬(r.io_running = none ∧ r.sql_running = none) then
        (if optTruthy r.io_running && optTruthy r.sql_running then SvcStatus.ok
         else if !optTruthy r.io_running && !optTruthy r.sql_running then SvcStatus.critical
         else SvcStatus.warning)
       else SvcStatus.unknown)
    else if pyLowerStrip r.slave_running = "off" then
      (if ¬(r.io_running = none ∧ r.sql_running = none) then
        (if !optTruthy r.io_running && !optTruthy r.sql_running then SvcStatus.critical
         else SvcStatus.unknown)
       else SvcStatus.unknown)
    else SvcStatus.unknown) with
  | s1 =>
    if s1 = SvcStatus.unknown then
      (if isMaster r.slaves r.master_host then
        (if r.slaves > 0 && r.binlog_enabled then SvcStatus.ok else SvcStatus.warning)
       else if r.slave_running ≠ "" then
        (if pyLowerStrip r.slave_running = "on" then SvcStatus.ok else SvcStatus.critical)
       else SvcStatus.unknown)
    else s1

/-- The deprecated gauge emitted alongside the service check:
`1 if slave_running_status == AgentCheck.OK else 0`. -/
def replGauge (s : SvcStatus) : Int := if s = SvcStatus.ok then 1 else 0

/-- "Either ok, or a swallowed-by-`except ValueError` error": the outcomes the
`Pending normal aio reads:` try-body can have. -/
def VEok (r : PRes) : Prop :=
  (∃ s, r = PRes.ok s) ∨ (∃ s, r = PRes.err PyErr.valueError s)

/-! ## Helper lemmas -/

theorem alGet_alSet_self {α : Type} (m : List (String × α)) (k : String) (v : α) :
    alGet (alSet m k v) k = some v := by
  induction m with
  | nil => simp [alSet, alGet]
  | cons hd t ih =>
    rcases hd with ⟨k2, v2⟩
    by_cases hk : k2 = k
    · simp [alSet, alGet, hk]
    · simp [alSet, alGet, hk, ih]

theorem alGet_alSet_ne {α : Type} (m : List (String × α)) (k kq : String) (v : α)
    (hne : kq ≠ k) : alGet (alSet m k v) kq = alGet m kq := by
  have hkq : ¬k = kq := fun h => hne h.symm
  induction m with
  | nil => simp [alSet, alGet, hkq]
  | cons hd t ih =>
    rcases hd with ⟨k2, v2⟩
    by_cases hk : k2 = k
    · subst hk
      simp [alSet, alGet, hkq]
    · by_cases hq : k2 = kq
      · subst hq
        simp [alSet, alGet, hk, hkq]
      · simp [alSet, alGet, hk, hq, ih]

theorem pyLong_cases (t : String) :
    (∃ m, pyLong t = Except.ok m) ∨ pyLong t = Except.error PyErr.valueError := by
  unfold pyLong
  by_cases hc : (splitSign t.data).2 ≠ [] ∧ (splitSign t.data).2.all isPyDigit
  · exact Or.inl ⟨_, if_pos hc⟩
  · exact Or.inr (if_neg hc)

theorem rowLong_cases (row : List String) (i : Nat) (h : i < row.length) :
    (∃ m, rowLong row i = Except.ok m) ∨ rowLong row i = Except.error PyErr.valueError := by
  unfold rowLong
  rw [List.get?_eq_get h]
  exact pyLong_cases _

theorem setLong_cases (k : String) (row : List String) (i : Nat) (s : PState)
    (h : i < row.length) : VEok (setLong k row i s) := by
  unfold setLong
  rcases rowLong_cases row i h with ⟨m, hm⟩ | hm
  · rw [hm]; exact Or.inl ⟨_, rfl⟩
  · rw [hm]; exact Or.inr ⟨_, rfl⟩

theorem mapRowLong_cases (row : List String) (idxs : List Nat)
    (hb : ∀ i ∈ idxs, i < row.length) :
    (∃ vs, mapRowLong row idxs = Except.ok vs) ∨
      mapRowLong row idxs = Except.error PyErr.valueError := by
  induction idxs with
  | nil => exact Or.inl ⟨[], rfl⟩
  | cons i t ih =>
    have hi : i < row.length := hb i (List.mem_cons_self i t)
    have ht : ∀ j ∈ t, j < row.length := fun j hj => hb j (List.mem_cons_of_mem i hj)
    rcases rowLong_cases row i hi with ⟨m, hm⟩ | hm
    · rcases ih ht with ⟨vs, hvs⟩ | hvs
      · exact Or.inl ⟨m :: vs, by simp [mapRowLong, hm, hvs]⟩
      · exact Or.inr (by simp [mapRowLong, hm, hvs])
    · exact Or.inr (by simp [mapRowLong, hm])

theorem setLongSum_cases (k : String) (row : List String) (idxs : List Nat) (s : PState)
    (hb : ∀ i ∈ idxs, i < row.length) : VEok (setLongSum k row idxs s) := by
  unfold setLongSum
  rcases mapRowLong_cases row idxs hb with ⟨vs, hvs⟩ | hvs
  · rw [hvs]; exact Or.inl ⟨_, rfl⟩
  · rw [hvs]; exact Or.inr ⟨_, rfl⟩

theorem VEok_bind {r : PRes} {f : PState → PRes} (h1 : VEok r)
    (h2 : ∀ s, VEok (f s)) : VEok (PRes.bind r f) := by
  rcases h1 with ⟨s, rfl⟩ | ⟨s, rfl⟩
  · exact h2 s
  · exact Or.inr ⟨s, rfl⟩

theorem catchVE_ok {r : PRes} (h : VEok r) : ∃ s2, catchVE r = PRes.ok s2 := by
  rcases h with ⟨s, rfl⟩ | ⟨s, rfl⟩
  · exact ⟨s, rfl⟩
  · exact ⟨s, rfl⟩

theorem pyFloat_of_pyLong (s : String) (n : Int) (h : pyLong s = Except.ok n) :
    pyFloat s = Except.ok (n : Rat) := by
  unfold pyLong at h
  by_cases hc : (splitSign s.data).2 ≠ [] ∧ (splitSign s.data).2.all isPyDigit
  · rw [if_pos hc] at h
    have hn : (splitSign s.data).1 * (digitsToNat (splitSign s.data).2 : Int) = n := by
      exact Except.ok.inj h
    have htw : (splitSign s.data).2.takeWhile isPyDigit = (splitSign s.data).2 :=
      List.takeWhile_eq_self_iff.mpr (List.all_eq_true.mp hc.2)
    unfold pyFloat
    rw [htw, List.drop_length]
    rw [if_neg hc.1, ← hn]
    push_cast
    ring_nf
  · rw [if_neg hc] at h
    cases h

theorem qvInt_str (v : String) : qvInt (QV.str v) = pyLong v := rfl

theorem qvFloat_str (v : String) : qvFloat (QV.str v) = pyFloat v := rfl

theorem qcacheCumulative_str (res : List (String × QV)) (hv iv nv : String) (h i n : Int)
    (hph : pyLong hv = Except.ok h) (hpi : pyLong iv = Except.ok i)
    (hpn : pyLong nv = Except.ok n) (hd : h = 0 ∨ i + n + h ≠ 0) :
    qcacheCumulative res (QV.str hv) (QV.str iv) (QV.str nv) h =
      Except.ok (alSet res "Qcache_utilization"
        (QV.num (if h = 0 then 0 else (h : Rat) / ((i + n + h : Int) : Rat) * 100))) := by
  unfold qcacheCumulative
  by_cases hz : h = 0
  · simp [hz]
  · have hf := pyFloat_of_pyLong hv h hph
    rcases hd with hd | hd
    · exact absurd hd hz
    · simp [hz, qvFloat_str, qvInt_str, hf, hpi, hpn, hd]

theorem qcacheCumulative_str_div0 (res : List (String × QV)) (hv iv nv : String)
    (h i n : Int) (hph : pyLong hv = Except.ok h) (hpi : pyLong iv = Except.ok i)
    (hpn : pyLong nv = Except.ok n) (hz : ¬h = 0) (hd : i + n + h = 0) :
    qcacheCumulative res (QV.str hv) (QV.str iv) (QV.str nv) h =
      Except.error PyErr.zeroDivisionError := by
  have hf := pyFloat_of_pyLong hv h hph
  unfold qcacheCumulative
  simp [hz, qvFloat_str, qvInt_str, hf, hpi, hpn, hd]

theorem qcacheInstant_skip (r : List (String × QV)) (hv iv nv : QV) (h : Int) (q : QState)
    (hq : q.hits = none ∨ q.inserts = none ∨ q.not_cached = none) :
    qcacheInstant r hv iv nv h q = Except.ok r := by
  rcases q with ⟨qh, qi, qn⟩
  unfold qcacheInstant
  rcases hq with hq | hq | hq <;> simp only at hq <;> subst hq
  · rfl
  · cases qh <;> rfl
  · cases qh <;> cases qi <;> rfl

theorem qcacheInstant_same (r : List (String × QV)) (hv iv nv : QV) (h : Int)
    (pin pn : Int) :
    qcacheInstant r hv iv nv h { hits := some h, inserts := some pin, not_cached := some pn } =
      Except.ok (alSet r "Qcache_instant_utilization" (QV.num 0)) := by
  unfold qcacheInstant
  simp

theorem qcacheUpdate_str (res2 : List (String × QV)) (hv iv nv : String) (h i n : Int)
    (hph : pyLong hv = Except.ok h) (hpi : pyLong iv = Except.ok i)
    (hpn : pyLong nv = Except.ok n) :
    qcacheUpdate res2 (QV.str hv) (QV.str iv) (QV.str nv) =
      Except.ok (res2, { hits := some h, inserts := some i, not_cached := some n }) := by
  unfold qcacheUpdate
  simp [qvInt_str, hph, hpi, hpn]

theorem compute_present (res : List (String × QV)) (hv iv nv : QV) (q : QState)
    (hh : alGet res "Qcache_hits" = some hv)
    (hi : alGet res "Qcache_inserts" = some iv)
    (hn : alGet res "Qcache_not_cached" = some nv) :
    computeSyntheticResults res q = computeSyntheticCore res hv iv nv q := by
  unfold computeSyntheticResults
  rw [hh, hi, hn]

theorem aioTry_VEok (s : PState) (row : List String) : VEok (aioTry s row) := by
  unfold aioTry
  split
  · next hlen =>
    exact VEok_bind (setLong_cases _ _ _ _ (by omega))
      (fun s1 => setLong_cases _ _ _ _ (by omega))
  split
  · next hlen =>
    exact VEok_bind (setLong_cases _ _ _ _ (by omega))
      (fun s1 => setLong_cases _ _ _ _ (by omega))
  split
  · next hlen =>
    split
    · exact VEok_bind
        (setLongSum_cases _ _ _ _ (by intro i hi; simp at hi; omega))
        (fun s1 => setLongSum_cases _ _ _ _ (by intro i hi; simp at hi; omega))
    split
    · exact VEok_bind (setLong_cases _ _ _ _ (by omega))
        (fun s1 => setLong_cases _ _ _ _ (by omega))
    · exact Or.inl ⟨_, rfl⟩
  split
  · next hlen =>
    exact VEok_bind (setLong_cases _ _ _ _ (by omega))
      (fun s1 => setLong_cases _ _ _ _ (by omega))
  split
  · next hlen =>
    exact VEok_bind (setLong_cases _ _ _ _ (by omega))
      (fun s1 => setLong_cases _ _ _ _ (by omega))
  · exact Or.inl ⟨_, rfl⟩

theorem splitCharAux_ne_nil (sep : Char) (l acc : List Char) :
    splitCharAux sep acc l ≠ [] := by
  induction l generalizing acc with
  | nil => simp [splitCharAux]
  | cons c rest ih =>
    unfold splitCharAux
    by_cases hc : c = sep
    · simp [hc]
    · simp [hc, ih]

theorem pySplitChar_ne_nil (sep : Char) (s : String) : pySplitChar sep s ≠ [] := by
  unfold pySplitChar
  simp [splitCharAux_ne_nil]

theorem metadataStep_flavor (fb : String × String) (d : String) :
    (metadataStep fb d).1 = fb.1 ∨ (metadataStep fb d).1 = "MySQL" ∨
      (metadataStep fb d).1 = "MariaDB" := by
  unfold metadataStep
  by_cases hd : d = "MariaDB"
  · simp [hd]
  · by_cases hf : fb.1 = ""
    · simp [hd, hf]
    · simp [hd, hf]

theorem metadataStep_first (d : String) :
    (metadataStep ("", "") d).1 = "MySQL" ∨ (metadataStep ("", "") d).1 = "MariaDB" := by
  unfold metadataStep
  by_cases hd : d = "MariaDB" <;> simp [hd]

theorem foldl_metadataStep_flavor (l : List String) (fb : String × String) :
    (l.foldl metadataStep fb).1 = fb.1 ∨ (l.foldl metadataStep fb).1 = "MySQL" ∨
      (l.foldl metadataStep fb).1 = "MariaDB" := by
  induction l generalizing fb with
  | nil => exact Or.inl rfl
  | cons d t ih =>
    rw [List.foldl_cons]
    rcases ih (metadataStep fb d) with h | h | h
    · rw [h]
      exact metadataStep_flavor fb d
    · exact Or.inr (Or.inl h)
    · exact Or.inr (Or.inr h)

theorem metadataStep_build (fb : String × String) (d : String) :
    (metadataStep fb d).2 = fb.2 ∨ (metadataStep fb d).2 = "log" := by
  unfold metadataStep
  dsimp only
  by_cases hb : d ∈ BUILDS
  · right
    have hd : d = "log" := by simpa [BUILDS] using hb
    rw [if_pos hb, hd]
  · left
    rw [if_neg hb]

theorem foldl_metadataStep_build (l : List String) (fb : String × String) :
    (l.foldl metadataStep fb).2 = fb.2 ∨ (l.foldl metadataStep fb).2 = "log" := by
  induction l generalizing fb with
  | nil => exact Or.inl rfl
  | cons d t ih =>
    rw [List.foldl_cons]
    rcases ih (metadataStep fb d) with h | h
    · rw [h]
      exact metadataStep_build fb d
    · exact Or.inr h

theorem getMetadata_flavor_cases (s : String) :
    (getMetadata s).2.1 = "MySQL" ∨ (getMetadata s).2.1 = "MariaDB" := by
  unfold getMetadata
  obtain ⟨p, rest, hp⟩ : ∃ p rest, pySplitChar '-' s = p :: rest := by
    rcases hsp : pySplitChar '-' s with _ | ⟨p, rest⟩
    · exact absurd hsp (pySplitChar_ne_nil '-' s)
    · exact ⟨p, rest, rfl⟩
  rw [hp]
  dsimp only
  rw [List.foldl_cons]
  rcases foldl_metadataStep_flavor rest (metadataStep ("", "") p) with h | h | h
  · rw [h]
    exact metadataStep_first p
  · exact Or.inl h
  · exact Or.inr h

theorem getMetadata_build_cases (s : String) :
    (getMetadata s).2.2 = "unspecified" ∨ (getMetadata s).2.2 = "log" := by
  unfold getMetadata
  dsimp only
  by_cases hb : ((pySplitChar '-' s).foldl metadataStep ("", "")).2 = ""
  · simp [hb]
  · rcases foldl_metadataStep_build (pySplitChar '-' s) ("", "") with h | h
    · exact absurd h hb
    · simp [hb, h]

/-! ## Claim theorems -/

/-- Claim C1, counterexample: the line-scan does not complete without raising
for every status text. The line `Mutex spin waits 1` matches the
`Mutex spin waits` pattern prefix but tokenizes into 4 tokens, so the read of
token 5 raises an uncaught `IndexError` and the whole parse fails. -/
theorem mysql_c1_counterexample :
    innodbStatusParse ["Mutex spin waits 1"] = Except.error PyErr.indexError := rfl

/-- Claim C1, amended: the token-count resilience holds for the
`Pending normal aio reads:` pattern — its handler returns normally for every
state and every token row (unrecognized token counts are skipped, and failed
numeric conversions are swallowed by the `except ValueError`), so such a line
never fails the parse; and concretely, a dump whose aio line tokenizes into an
unexpected count (7 tokens) parses to completion with the line skipped. -/
theorem mysql_c1_amended :
    (∀ (s : PState) (row : List String), ∃ s2, aioHandler s row = PRes.ok s2) ∧
    innodbStatusParse ["Pending normal aio reads: 1 2 3"] =
      Except.ok [("Innodb_lsn_current", "0"), ("Innodb_lsn_last_checkpoint", "0"),
        ("Innodb_checkpoint_age", "0")] :=
  ⟨fun s row => catchVE_ok (aioTry_VEok s row), rfl⟩

/-- Claim C3, code bug: on a dump in which neither LSN counter was collected
(here: the empty dump), the parser does NOT omit the checkpoint age — because
`results` is a `defaultdict(int)`, the two reads materialize `0` defaults
instead of raising the `KeyError` the source tries to catch, so the output
contains `Innodb_checkpoint_age = "0"` (and both LSN counters as `"0"`). -/
theorem mysql_c3_bug_eval :
    innodbStatusParse [] =
      Except.ok [("Innodb_lsn_current", "0"), ("Innodb_lsn_last_checkpoint", "0"),
        ("Innodb_checkpoint_age", "0")] ∧
    alGet [("Innodb_lsn_current", "0"), ("Innodb_lsn_last_checkpoint", "0"),
        ("Innodb_checkpoint_age", "0")] "Innodb_checkpoint_age" = some "0" :=
  ⟨rfl, rfl⟩

/-- Claim C4, counterexample: version resolution does not tolerate a version
string with fewer than 3 numeric segments — `_version_compatible` on `"5.0"`
raises an uncaught `IndexError` (the `try` only wraps the `split` call)
instead of treating the missing patch segment as 0. -/
theorem mysql_c4_counterexample :
    versionCompatible "5.0" (5, 0, 0) = Except.error PyErr.indexError := rfl

/-- Claim C4, amended: metadata resolution never fails — flavor always
resolves to `MySQL` or `MariaDB` and build to `unspecified` or a known tag —
and a patch segment mixing digits and letters contributes only its leading
digit run, so `"5.0.51a"` compares `≥ (5,0,50)` and `< (5,0,52)` (the patch
parses as 51); but a version string with fewer than 3 dot-segments makes
`_version_compatible` raise an uncaught `IndexError` rather than being padded
with zeros. -/
theorem mysql_c4_amended :
    (∀ s : String, (getMetadata s).2.1 = "MySQL" ∨ (getMetadata s).2.1 = "MariaDB") ∧
    (∀ s : String, (getMetadata s).2.2 = "unspecified" ∨ (getMetadata s).2.2 = "log") ∧
    versionCompatible "5.0.51a" (5, 0, 50) = Except.ok true ∧
    versionCompatible "5.0.51a" (5, 0, 52) = Except.ok false := by
  refine ⟨?_, ?_, rfl, rfl⟩
  · intro s
    exact getMetadata_flavor_cases s
  · intro s
    exact getMetadata_build_cases s

/-- Claim C5, counterexample: the server-identity key does not give host+port
priority. With a defaults file configured and a port set, the key is the
defaults-file path, not host+port; and with both a socket and a port set, the
key is host+socket, not host+port. -/
theorem mysql_c5_counterexample :
    getHostKey "/etc/my.cnf" "db1" "" 3306 = "/etc/my.cnf" ∧
    getHostKey "" "db1" "/tmp/mysql.sock" 3306 = "db1:/tmp/mysql.sock" ∧
    ("/etc/my.cnf" : String) ≠ "db1:3306" ∧
    ("db1:/tmp/mysql.sock" : String) ≠ "db1:3306" := by
  refine ⟨rfl, rfl, by decide, by decide⟩

/-- Claim C5, amended: the identity key's priority order is defaults-file
first, then host+socket, then host+port: the key is the defaults-file path
whenever one is set; otherwise host+socket when a socket is set (even if a
port is also set); otherwise host+port when a nonzero port is set; otherwise
the bare host. -/
theorem mysql_c5_amended (df host sock : String) (port : Int) :
    (df ≠ "" → getHostKey df host sock port = df) ∧
    (df = "" → sock ≠ "" → getHostKey df host sock port = host ++ ":" ++ sock) ∧
    (df = "" → sock = "" → port ≠ 0 →
      getHostKey df host sock port = host ++ ":" ++ toString port) ∧
    (df = "" → sock = "" → port = 0 → getHostKey df host sock port = host) := by
  refine ⟨?_, ?_, ?_, ?_⟩
  · intro h1
    simp [getHostKey, h1]
  · intro h1 h2
    simp [getHostKey, h1, h2]
  · intro h1 h2 h3
    simp [getHostKey, h1, h2, h3]
  · intro h1 h2 h3
    simp [getHostKey, h1, h2, h3]

/-- Claim C5, witness for the amended theorem at concrete inputs. -/
theorem mysql_c5_witness :
    getHostKey "/etc/my.cnf" "db1" "" 3306 = "/etc/my.cnf" ∧
    getHostKey "" "db1" "/tmp/mysql.sock" 3306 = "db1:/tmp/mysql.sock" ∧
    getHostKey "" "db1" "" 3306 = "db1:3306" ∧
    getHostKey "" "db1" "" 0 = "db1" := by
  refine ⟨(mysql_c5_amended "/etc/my.cnf" "db1" "" 3306).1 (by decide),
    (mysql_c5_amended "" "db1" "/tmp/mysql.sock" 3306).2.1 rfl (by decide),
    ?_, ?_⟩
  · have h := (mysql_c5_amended "" "db1" "" 3306).2.2.1 rfl rfl (by decide)
    simpa using h
  · exact (mysql_c5_amended "" "db1" "" 0).2.2.2 rfl rfl rfl

/-- Claim C6, code bug: the optional metric groups do not gate per pass. The
catalog object is the module-level `STATUS_VARS` table itself
(`metrics = STATUS_VARS` aliases it), so a pass with the extra-status toggle
enabled permanently adds `OPTIONAL_STATUS_VARS` to the table, and a later
pass of the same process with the toggle disabled still carries the group —
even though single-pass gating from a pristine table works. -/
theorem mysql_c6_bug_eval :
    (MetricOptions.mk false false false false false false false false false false false []).extra_status = false ∧
    "mysql.status.extra" ∈
      collectCatalog
        (collectCatalog STATUS_VARS_initial
          (MetricOptions.mk false false false true false false false false false false false []))
        (MetricOptions.mk false false false false false false false false false false false []) ∧
    "mysql.status.extra" ∉
      collectCatalog STATUS_VARS_initial
        (MetricOptions.mk false false false false false false false false false false false []) := by
  refine ⟨rfl, by decide, by decide⟩

/-- Claim C9, confirmed: buffer-pool metric lines inside a named per-pool
sub-report do not touch the aggregate counters. A dump of
`---BUFFER POOL 1` followed by `Database pages 500` yields no
`Innodb_buffer_pool_pages_data` in the output; processing the
`Database pages 500` line in a state with a non-aggregate pool id (whatever
the transaction latch) changes nothing but `prev_line`; and the same line
with pool id `-1` does set the aggregate counter. -/
theorem mysql_c9 :
    innodbStatusParse ["---BUFFER POOL 1", "Database pages 500"] =
      Except.ok [("Innodb_lsn_current", "0"), ("Innodb_lsn_last_checkpoint", "0"),
        ("Innodb_checkpoint_age", "0")] ∧
    alGet [("Innodb_lsn_current", "0"), ("Innodb_lsn_last_checkpoint", "0"),
        ("Innodb_checkpoint_age", "0")] "Innodb_buffer_pool_pages_data" = none ∧
    processLine (PState.mk [] false "---BUFFER POOL 1" 1) "Database pages 500" =
      PRes.ok (PState.mk [] false "Database pages 500" 1) ∧
    processLine (PState.mk [] true "" 1) "Database pages 500" =
      PRes.ok (PState.mk [] true "Database pages 500" 1) ∧
    innodbStatusParse ["Database pages 500"] =
      Except.ok [("Innodb_buffer_pool_pages_data", "500"), ("Innodb_lsn_current", "0"),
        ("Innodb_lsn_last_checkpoint", "0"), ("Innodb_checkpoint_age", "0")] :=
  ⟨rfl, rfl, rfl, rfl, rfl⟩

/-- Claim C2, confirmed: with replication monitoring enabled, (a) when the
server version is at least 5.7.0 and both thread flags are present, the
classification is OK iff both are running, Critical iff both are stopped,
and Warning otherwise; and (b) when both thread-flag signals are absent and
the legacy `Slave_running` variable reads `on` on a non-source host (no
connected replicas, an upstream source recorded), the classification is OK
whatever the version comparison said. -/
theorem mysql_c2 (r : ReplInput) (a b : Bool) :
    (r.vc570 = true → r.io_running = some a → r.sql_running = some b →
      replStatus r = (if a && b then SvcStatus.ok
        else if !a && !b then SvcStatus.critical else SvcStatus.warning)) ∧
    (r.io_running = none → r.sql_running = none → r.slave_running = "on" →
      ¬r.slaves > 0 → r.master_host ≠ "" → replStatus r = SvcStatus.ok) := by
  constructor
  · intro hv hio hsql
    cases a <;> cases b <;>
      simp [replStatus, hv, hio, hsql, optTruthy]
  · intro hio hsql hsr hsl hmh
    have hon : pyLowerStrip "on" = "on" := rfl
    have hoff : ¬pyLowerStrip "on" = "off" := by decide
    cases hv : r.vc570 <;>
      simp [replStatus, hv, hio, hsql, hsr, hon, hoff, isMaster, hsl, hmh]

/-- Claim C2, witness: both scenarios at concrete inputs. -/
theorem mysql_c2_witness :
    replStatus (ReplInput.mk true "" false 0 "" (some true) (some true)) = SvcStatus.ok ∧
    replStatus (ReplInput.mk true "" false 0 "" (some true) (some false)) = SvcStatus.warning ∧
    replStatus (ReplInput.mk true "" false 0 "" (some false) (some false)) = SvcStatus.critical ∧
    replStatus (ReplInput.mk false "on" false 0 "upstream" none none) = SvcStatus.ok := by
  refine ⟨?_, ?_, ?_, ?_⟩
  · have h := (mysql_c2 (ReplInput.mk true "" false 0 "" (some true) (some true)) true true).1
      rfl rfl rfl
    simpa using h
  · have h := (mysql_c2 (ReplInput.mk true "" false 0 "" (some true) (some false)) true false).1
      rfl rfl rfl
    simpa using h
  · have h := (mysql_c2 (ReplInput.mk true "" false 0 "" (some false) (some false)) false false).1
      rfl rfl rfl
    simpa using h
  · exact (mysql_c2 (ReplInput.mk false "on" false 0 "upstream" none none) true true).2
      rfl rfl rfl (by decide) (by decide)

/-- Claim C10, confirmed: the legacy replication gauge emitted alongside the
tri-state status equals 1 exactly in the OK case and 0 in every other case —
Warning, Critical and Unknown alike — so it maps the unknown state and the
failing states to the same value. -/
theorem mysql_c10 (r : ReplInput) :
    ((replStatus r = SvcStatus.ok ∧ replGauge (replStatus r) = 1) ∨
      ((replStatus r = SvcStatus.warning ∨ replStatus r = SvcStatus.critical ∨
        replStatus r = SvcStatus.unknown) ∧ replGauge (replStatus r) = 0)) ∧
    replGauge SvcStatus.unknown = replGauge SvcStatus.critical ∧
    replGauge SvcStatus.warning = 0 := by
  refine ⟨?_, rfl, rfl⟩
  cases h : replStatus r with
  | ok => exact Or.inl ⟨rfl, by simp [replGauge]⟩
  | warning => exact Or.inr ⟨Or.inl rfl, by simp [replGauge]⟩
  | critical => exact Or.inr ⟨Or.inr (Or.inl rfl), by simp [replGauge]⟩
  | unknown => exact Or.inr ⟨Or.inr (Or.inr rfl), by simp [replGauge]⟩

theorem cumulForm (h i n : Int) :
    (if h = 0 then (0 : Rat) else (h : Rat) / ((i + n + h : Int) : Rat) * 100) =
      (if h = 0 then (0 : Rat)
        else (h : Rat) / ((h : Rat) + (i : Rat) + (n : Rat)) * 100) := by
  by_cases hz : h = 0
  · simp [hz]
  · rw [if_neg hz, if_neg hz]
    have hc : ((i + n + h : Int) : Rat) = (h : Rat) + (i : Rat) + (n : Rat) := by
      push_cast
      ring
    rw [hc]

theorem qcacheInstant_str_cases (r : List (String × QV)) (hv iv nv : String)
    (h i n : Int) (q : QState)
    (hph : pyLong hv = Except.ok h) (hpi : pyLong iv = Except.ok i)
    (hpn : pyLong nv = Except.ok n) :
    (∃ x, qcacheInstant r (QV.str hv) (QV.str iv) (QV.str nv) h q =
        Except.ok (alSet r "Qcache_instant_utilization" (QV.num x))) ∨
    qcacheInstant r (QV.str hv) (QV.str iv) (QV.str nv) h q = Except.ok r ∨
    qcacheInstant r (QV.str hv) (QV.str iv) (QV.str nv) h q =
      Except.error PyErr.zeroDivisionError := by
  rcases q with ⟨qh, qi, qn⟩
  rcases qh with _ | ph
  · exact Or.inr (Or.inl (qcacheInstant_skip r _ _ _ h _ (Or.inl rfl)))
  rcases qi with _ | pin
  · exact Or.inr (Or.inl (qcacheInstant_skip r _ _ _ h _ (Or.inr (Or.inl rfl))))
  rcases qn with _ | pn
  · exact Or.inr (Or.inl (qcacheInstant_skip r _ _ _ h _ (Or.inr (Or.inr rfl))))
  · unfold qcacheInstant
    dsimp only
    by_cases hz : h - ph = 0
    · rw [if_pos hz]
      exact Or.inl ⟨0, rfl⟩
    · rw [if_neg hz, qvFloat_str, pyFloat_of_pyLong hv h hph, qvInt_str, hpi, qvInt_str, hpn]
      dsimp only
      by_cases hb : (i - pin) + (n - pn) + (h - ph) = 0
      · rw [if_pos hb]
        exact Or.inr (Or.inr rfl)
      · rw [if_neg hb]
        exact Or.inl ⟨_, rfl⟩

/-- Claim C8, confirmed: whenever the three raw query-cache counters are
present (as the decimal strings the status query delivers), every successful
pass computes cumulative `Qcache_utilization` as
`hits / (hits + inserts + misses) * 100`, and exactly 0 when `hits` is 0. -/
theorem mysql_c8 (res : List (String × QV)) (hv iv nv : String) (h i n : Int)
    (hh : alGet res "Qcache_hits" = some (QV.str hv))
    (hi : alGet res "Qcache_inserts" = some (QV.str iv))
    (hn : alGet res "Qcache_not_cached" = some (QV.str nv))
    (hph : pyLong hv = Except.ok h) (hpi : pyLong iv = Except.ok i)
    (hpn : pyLong nv = Except.ok n) :
    ∀ (q : QState) (res2 : List (String × QV)) (q2 : QState),
      computeSyntheticResults res q = Except.ok (res2, q2) →
      alGet res2 "Qcache_utilization" =
        some (QV.num (if h = 0 then 0
          else (h : Rat) / ((h : Rat) + (i : Rat) + (n : Rat)) * 100)) := by
  intro q res2 q2 hok
  rw [compute_present res _ _ _ q hh hi hn] at hok
  unfold computeSyntheticCore at hok
  rw [qvInt_str, hph] at hok
  dsimp only at hok
  by_cases hd : h = 0 ∨ i + n + h ≠ 0
  · rw [qcacheCumulative_str res hv iv nv h i n hph hpi hpn hd] at hok
    dsimp only at hok
    rcases qcacheInstant_str_cases
        (alSet res "Qcache_utilization"
          (QV.num (if h = 0 then 0 else (h : Rat) / ((i + n + h : Int) : Rat) * 100)))
        hv iv nv h i n q hph hpi hpn with ⟨x, hx⟩ | hx | hx
    · rw [hx] at hok
      dsimp only at hok
      rw [qcacheUpdate_str _ hv iv nv h i n hph hpi hpn] at hok
      obtain ⟨h1, h2⟩ := Prod.mk.injEq .. |>.mp (Except.ok.inj hok)
      subst h1
      rw [alGet_alSet_ne _ _ _ _ (by decide), alGet_alSet_self, cumulForm]
    · rw [hx] at hok
      dsimp only at hok
      rw [qcacheUpdate_str _ hv iv nv h i n hph hpi hpn] at hok
      obtain ⟨h1, h2⟩ := Prod.mk.injEq .. |>.mp (Except.ok.inj hok)
      subst h1
      rw [alGet_alSet_self, cumulForm]
    · rw [hx] at hok
      cases hok
  · push_neg at hd
    rw [qcacheCumulative_str_div0 res hv iv nv h i n hph hpi hpn hd.1 hd.2] at hok
    cases hok

theorem compute_first_sample (res : List (String × QV)) (hv iv nv : String) (h i n : Int)
    (hh : alGet res "Qcache_hits" = some (QV.str hv))
    (hi : alGet res "Qcache_inserts" = some (QV.str iv))
    (hn : alGet res "Qcache_not_cached" = some (QV.str nv))
    (hph : pyLong hv = Except.ok h) (hpi : pyLong iv = Except.ok i)
    (hpn : pyLong nv = Except.ok n) (hd : h = 0 ∨ i + n + h ≠ 0) :
    computeSyntheticResults res (QState.mk none none none) =
      Except.ok (alSet res "Qcache_utilization"
          (QV.num (if h = 0 then 0 else (h : Rat) / ((i + n + h : Int) : Rat) * 100)),
        QState.mk (some h) (some i) (some n)) := by
  rw [compute_present res _ _ _ _ hh hi hn]
  unfold computeSyntheticCore
  rw [qvInt_str, hph]
  dsimp only
  rw [qcacheCumulative_str res hv iv nv h i n hph hpi hpn hd]
  dsimp only
  rw [qcacheInstant_skip _ _ _ _ _ _ (Or.inl rfl)]
  dsimp only
  rw [qcacheUpdate_str _ hv iv nv h i n hph hpi hpn]

theorem compute_second_sample (res : List (String × QV)) (hv iv nv : String) (h i n : Int)
    (hh : alGet res "Qcache_hits" = some (QV.str hv))
    (hi : alGet res "Qcache_inserts" = some (QV.str iv))
    (hn : alGet res "Qcache_not_cached" = some (QV.str nv))
    (hph : pyLong hv = Except.ok h) (hpi : pyLong iv = Except.ok i)
    (hpn : pyLong nv = Except.ok n) (hd : h = 0 ∨ i + n + h ≠ 0) :
    computeSyntheticResults res (QState.mk (some h) (some i) (some n)) =
      Except.ok (alSet (alSet res "Qcache_utilization"
          (QV.num (if h = 0 then 0 else (h : Rat) / ((i + n + h : Int) : Rat) * 100)))
          "Qcache_instant_utilization" (QV.num 0),
        QState.mk (some h) (some i) (some n)) := by
  rw [compute_present res _ _ _ _ hh hi hn]
  unfold computeSyntheticCore
  rw [qvInt_str, hph]
  dsimp only
  rw [qcacheCumulative_str res hv iv nv h i n hph hpi hpn hd]
  dsimp only
  rw [qcacheInstant_same]
  dsimp only
  rw [qcacheUpdate_str _ hv iv nv h i n hph hpi hpn]

/-- Claim C8, witness: hits=50, inserts=30, misses=20 yields exactly 50. -/
theorem mysql_c8_witness :
    ∃ (res2 : List (String × QV)) (q2 : QState),
      computeSyntheticResults [("Qcache_hits", QV.str "50"), ("Qcache_inserts", QV.str "30"),
          ("Qcache_not_cached", QV.str "20")] (QState.mk none none none) =
        Except.ok (res2, q2) ∧
      alGet res2 "Qcache_utilization" = some (QV.num 50) := by
  have hok := compute_first_sample
    [("Qcache_hits", QV.str "50"), ("Qcache_inserts", QV.str "30"),
      ("Qcache_not_cached", QV.str "20")] "50" "30" "20" 50 30 20
    rfl rfl rfl rfl rfl rfl (Or.inr (by decide))
  refine ⟨_, _, hok, ?_⟩
  have h := mysql_c8
    [("Qcache_hits", QV.str "50"), ("Qcache_inserts", QV.str "30"),
      ("Qcache_not_cached", QV.str "20")] "50" "30" "20" 50 30 20
    rfl rfl rfl rfl rfl rfl (QState.mk none none none) _ _ hok
  rw [h]
  norm_num

/-- Claim C7, confirmed: the instantaneous query-cache metric is computed
only when all three prior-pass counters are present — for any prior state
with a missing counter (in particular the first-ever sample) the metric key
is absent from the output — and a second sample whose counters are identical
to the first yields instantaneous utilization exactly 0 (the zero hits-delta
short-circuits, so no division happens). -/
theorem mysql_c7 (res : List (String × QV)) (hv iv nv : String) (h i n : Int)
    (hh : alGet res "Qcache_hits" = some (QV.str hv))
    (hi : alGet res "Qcache_inserts" = some (QV.str iv))
    (hn : alGet res "Qcache_not_cached" = some (QV.str nv))
    (hph : pyLong hv = Except.ok h) (hpi : pyLong iv = Except.ok i)
    (hpn : pyLong nv = Except.ok n)
    (h0 : 0 ≤ h) (i0 : 0 ≤ i) (n0 : 0 ≤ n)
    (hni : alGet res "Qcache_instant_utilization" = none) :
    (∀ (q : QState) (res2 : List (String × QV)) (q2 : QState),
        (q.hits = none ∨ q.inserts = none ∨ q.not_cached = none) →
        computeSyntheticResults res q = Except.ok (res2, q2) →
        alGet res2 "Qcache_instant_utilization" = none) ∧
    (∃ res1, computeSyntheticResults res (QState.mk none none none) =
        Except.ok (res1, QState.mk (some h) (some i) (some n)) ∧
      alGet res1 "Qcache_instant_utilization" = none ∧
      ∃ res2, computeSyntheticResults res (QState.mk (some h) (some i) (some n)) =
          Except.ok (res2, QState.mk (some h) (some i) (some n)) ∧
        alGet res2 "Qcache_instant_utilization" = some (QV.num 0)) := by
  have hd : h = 0 ∨ i + n + h ≠ 0 := by
    by_cases hz : h = 0
    · exact Or.inl hz
    · exact Or.inr (by omega)
  constructor
  · intro q res2 q2 hq hok
    rw [compute_present res _ _ _ q hh hi hn] at hok
    unfold computeSyntheticCore at hok
    rw [qvInt_str, hph] at hok
    dsimp only at hok
    rw [qcacheCumulative_str res hv iv nv h i n hph hpi hpn hd] at hok
    dsimp only at hok
    rw [qcacheInstant_skip _ _ _ _ _ _ hq] at hok
    dsimp only at hok
    rw [qcacheUpdate_str _ hv iv nv h i n hph hpi hpn] at hok
    obtain ⟨h1, h2⟩ := Prod.mk.injEq .. |>.mp (Except.ok.inj hok)
    subst h1
    rw [alGet_alSet_ne _ _ _ _ (by decide)]
    exact hni
  · refine ⟨_, compute_first_sample res hv iv nv h i n hh hi hn hph hpi hpn hd, ?_, _,
      compute_second_sample res hv iv nv h i n hh hi hn hph hpi hpn hd, ?_⟩
    · rw [alGet_alSet_ne _ _ _ _ (by decide)]
      exact hni
    · rw [alGet_alSet_self]

/-- Claim C7, witness: the two-pass scenario at hits=50, inserts=30,
misses=20 — the first-ever sample omits the instantaneous metric, the
identical second sample yields exactly 0. -/
theorem mysql_c7_witness :
    ∃ res1, computeSyntheticResults [("Qcache_hits", QV.str "50"),
        ("Qcache_inserts", QV.str "30"), ("Qcache_not_cached", QV.str "20")]
        (QState.mk none none none) =
      Except.ok (res1, QState.mk (some 50) (some 30) (some 20)) ∧
    alGet res1 "Qcache_instant_utilization" = none ∧
    ∃ res2, computeSyntheticResults [("Qcache_hits", QV.str "50"),
        ("Qcache_inserts", QV.str "30"), ("Qcache_not_cached", QV.str "20")]
        (QState.mk (some 50) (some 30) (some 20)) =
        Except.ok (res2, QState.mk (some 50) (some 30) (some 20)) ∧
      alGet res2 "Qcache_instant_utilization" = some (QV.num 0) :=
  (mysql_c7 [("Qcache_hits", QV.str "50"), ("Qcache_inserts", QV.str "30"),
      ("Qcache_not_cached", QV.str "20")] "50" "30" "20" 50 30 20
    rfl rfl rfl rfl rfl rfl (by decide) (by decide) (by decide) rfl).2
